import Mathlib

/-!
Shallow embedding of the syslog codec of the SyslogTester repository:
the priority codec, the RFC 3164 and RFC 5424 message parsers and
generators (src/app/parsers/rfc3164.py, src/app/parsers/rfc5424.py,
src/app/generators/rfc3164.py, src/app/generators/rfc5424.py), the
shared pydantic data model (src/app/models/syslog.py) and the dispatch
layer (src/app/parsers/parse_service.py,
src/app/generators/generator_service.py).

Python's compiled regular expressions are embedded as deterministic
character-list matchers.  On the two patterns used here every greedy or
lazy quantifier is forced (any backtracking alternative fails
immediately), so a deterministic maximal-munch / minimal-munch matcher
computes exactly the match and the captured groups of `re.match`; this
was checked against CPython's `re` on the boundary cases (non-digit PID
brackets, embedded newlines, multi-digit days, structured-data
elements).  Character classes model the ASCII portion of `\s`, `\w`,
`\d`; `datetime.datetime.now()` is modelled by an explicit
`PyDateTime` value passed to the generators, and the ambient current
year of `RFC3164Parser.parse_timestamp` by an explicit `year`
parameter.  `ValueError` is modelled by `Except String`.
-/

namespace SyslogTester

/-- ASCII portion of Python's whitespace class `\s` (also used by `str.strip`
and no-argument `str.split`). -/
def isWs (c : Char) : Bool :=
  c = ' ' || c = '\t' || c = '\n' || c = '\x0b' || c = '\x0c' || c = '\r'

/-- Python regex class `\d`. -/
def isDigitC (c : Char) : Bool :=
  '0' ≤ c && c ≤ '9'

/-- ASCII portion of Python regex class `\w`. -/
def isWordC (c : Char) : Bool :=
  c.isAlpha || isDigitC c || c = '_'

/-- The character class `[^:\[\s]` of the RFC 3164 TAG group. -/
def isTagC (c : Char) : Bool :=
  !(c = ':' || c = '[' || isWs c)

/-- Greedy `p+`: the maximal non-empty prefix of characters satisfying `p`,
or failure.  On both syslog patterns every `\d+`, `\s+`, `\S+`, `\w`-run and
tag run is followed by a character the class rejects, so maximal munch is
exactly what the backtracking engine commits to. -/
def munch1 (p : Char → Bool) (l : List Char) : Option (List Char × List Char) :=
  if l.takeWhile p = [] then none else some (l.takeWhile p, l.dropWhile p)

/-- A single literal character of the pattern. -/
def expectC (c : Char) (l : List Char) : Option (List Char) :=
  match l with
  | x :: r => if x = c then some r else none
  | [] => none

/-- `p{n}`: exactly `n` characters satisfying `p`. -/
def takeN (p : Char → Bool) : Nat → List Char → Option (List Char × List Char)
  | 0, l => some ([], l)
  | _ + 1, [] => none
  | n + 1, c :: r =>
    if p c then (takeN p n r).map (fun ar => (c :: ar.1, ar.2)) else none

/-- Python `str.strip()` (ASCII whitespace). -/
def pyStrip (l : List Char) : List Char :=
  ((l.dropWhile isWs).reverse.dropWhile isWs).reverse

/-- Accumulator form of Python's no-argument `str.split()`: split on runs of
whitespace, discarding empty tokens. -/
def pySplitAux : List Char → List Char → List (List Char)
  | [], acc => if acc = [] then [] else [acc.reverse]
  | c :: r, acc =>
    if isWs c then
      if acc = [] then pySplitAux r [] else acc.reverse :: pySplitAux r []
    else
      pySplitAux r (c :: acc)

/-- Python `str.split()` with no argument. -/
def pySplit (l : List Char) : List (List Char) :=
  pySplitAux l []

/-- Accumulator form of Python's `str.split(':')` (keeps empty tokens). -/
def splitColonAux : List Char → List Char → List (List Char)
  | [], acc => [acc.reverse]
  | c :: r, acc =>
    if c = ':' then acc.reverse :: splitColonAux r [] else splitColonAux r (c :: acc)

/-- Python `str.split(':')`. -/
def splitColon (l : List Char) : List (List Char) :=
  splitColonAux l []

/-- Value of a decimal digit list, most significant first. -/
def digitsToNat (l : List Char) : Nat :=
  l.foldl (fun a c => 10 * a + (c.toNat - 48)) 0

/-- Python `int(s)` restricted to the non-empty all-digit tokens that the
syslog regexes capture (the only call sites in the codec). -/
def pyInt (l : List Char) : Option Int :=
  if l = [] then none
  else if l.all isDigitC then some (Int.ofNat (digitsToNat l)) else none

/-- Fuel-indexed decimal digit expansion (`fuel` structural so that concrete
evaluation reduces in the kernel). -/
def natToDigitsAux : Nat → Nat → List Char
  | 0, _ => []
  | fuel + 1, n =>
    if n < 10 then [Char.ofNat (48 + n)]
    else natToDigitsAux fuel (n / 10) ++ [Char.ofNat (48 + n % 10)]

/-- Decimal digits of a natural number, as produced by Python `str`. -/
def natToDigits (n : Nat) : List Char :=
  natToDigitsAux (n + 1) n

/-- Python `str(i)` for an `int`. -/
def intToString (i : Int) : String :=
  if i < 0 then "-" ++ String.mk (natToDigits (-i).toNat)
  else String.mk (natToDigits i.toNat)

/-- A `datetime.datetime` value as used by the generators
(`datetime.datetime.now()` is modelled by passing such a value in). -/
structure PyDateTime where
  year : Int
  month : Int
  day : Int
  hour : Int
  minute : Int
  second : Int
  micro : Int := 0
deriving DecidableEq

/-- `datetime.datetime(year, month, day, hour, minute, second)` constructor
range checks. -/
def isLeap (y : Int) : Bool :=
  y % 4 = 0 && (y % 100 ≠ 0 || y % 400 = 0)

/-- Number of days of a month, per the Gregorian calendar used by
`datetime`. -/
def daysInMonth (y m : Int) : Int :=
  if m = 2 then (if isLeap y then 29 else 28)
  else if m = 4 || m = 6 || m = 9 || m = 11 then 30
  else 31

/-- The validity condition `datetime.datetime(y, mo, d, h, mi, s)` enforces
(raising `ValueError` otherwise). -/
def validDateTime (y mo d h mi s : Int) : Bool :=
  1 ≤ y && y ≤ 9999 && 1 ≤ mo && mo ≤ 12 && 1 ≤ d && d ≤ daysInMonth y mo &&
  0 ≤ h && h ≤ 23 && 0 ≤ mi && mi ≤ 59 && 0 ≤ s && s ≤ 59

/-- Zero-padded two-digit rendering (`%H`, `%M`, `%S`, and the month/day of
`isoformat`). -/
def pad2 (i : Int) : String :=
  if i < 10 then "0" ++ intToString i else intToString i

/-- Four-digit year of `isoformat`. -/
def pad4 (i : Int) : String :=
  if i < 10 then "000" ++ intToString i
  else if i < 100 then "00" ++ intToString i
  else if i < 1000 then "0" ++ intToString i
  else intToString i

/-- Six-digit microsecond field of `isoformat`. -/
def pad6 (i : Int) : String :=
  if i < 10 then "00000" ++ intToString i
  else if i < 100 then "0000" ++ intToString i
  else if i < 1000 then "000" ++ intToString i
  else if i < 10000 then "00" ++ intToString i
  else if i < 100000 then "0" ++ intToString i
  else intToString i

/-- `datetime.isoformat()` without a microsecond part, as produced by the
second-resolution datetime built in `RFC3164Parser.parse_timestamp`. -/
def isoCore (y mo d h mi s : Int) : String :=
  pad4 y ++ "-" ++ pad2 mo ++ "-" ++ pad2 d ++ "T" ++ pad2 h ++ ":" ++ pad2 mi ++ ":" ++ pad2 s

/-- `SyslogMessage`/`RFC3164SyslogMessage` of src/app/models/syslog.py. -/
structure RFC3164SyslogMessage where
  priority : Int
  facility : Int
  severity : Int
  timestamp : String
  hostname : String
  pid : Option String := none
  message : String
  rfc_version : String := "3164"
  tag : String
deriving DecidableEq

/-- `RFC5424SyslogMessage` of src/app/models/syslog.py (the parser does not
pass `rfc_version`, so it keeps the inherited default "3164"). -/
structure RFC5424SyslogMessage where
  priority : Int
  facility : Int
  severity : Int
  timestamp : String
  hostname : String
  pid : Option String := none
  message : String
  rfc_version : String := "3164"
  version : Int := 1
  app_name : Option String := none
  msg_id : Option String := none
  structured_data : Option String := none
deriving DecidableEq

/-- `MessageComponents` of src/app/models/syslog.py. -/
structure MessageComponents where
  rfc_version : String
  priority : Option Int := none
  facility : Option Int := none
  severity : Option Int := none
  timestamp : Option String := none
  hostname : Option String := none
  tag : Option String := none
  pid : Option Int := none
  app_name : Option String := none
  proc_id : Option String := none
  msg_id : Option String := none
  structured_data : Option String := none
  message : Option String := none
deriving DecidableEq

/-- The captured groups of `RFC3164Parser.RFC3164_PATTERN`. -/
structure G3164 where
  pri : List Char
  ts : List Char
  host : List Char
  tag : List Char
  pid : Option (List Char)
  msg : List Char
deriving DecidableEq

/-- The timestamp group `(\w{3}\s+\d{1,2}\s+\d{2}:\d{2}:\d{2})` of the
RFC 3164 pattern; returns the captured text and the rest of the input.
`\d{1,2}` is realised as maximal digit munch bounded by 2: a third digit
makes every backtracking alternative of the Python engine fail as well. -/
def matchTs (l : List Char) : Option (List Char × List Char) :=
  match takeN isWordC 3 l with
  | none => none
  | some (w, r1) =>
  match munch1 isWs r1 with
  | none => none
  | some (s1, r2) =>
  match munch1 isDigitC r2 with
  | none => none
  | some (d, r3) =>
  if d.length ≤ 2 then
    match munch1 isWs r3 with
    | none => none
    | some (s2, r4) =>
    match takeN isDigitC 2 r4 with
    | none => none
    | some (hh, r5) =>
    match expectC ':' r5 with
    | none => none
    | some r6 =>
    match takeN isDigitC 2 r6 with
    | none => none
    | some (mm, r7) =>
    match expectC ':' r7 with
    | none => none
    | some r8 =>
    match takeN isDigitC 2 r8 with
    | none => none
    | some (ss, r9) =>
      some (w ++ s1 ++ d ++ s2 ++ hh ++ ':' :: mm ++ ':' :: ss, r9)
  else none

/-- `re.match` of `RFC3164_PATTERN` on an already-stripped input:
`^<(\d+)>(\w{3}\s+\d{1,2}\s+\d{2}:\d{2}:\d{2})\s+(\S+)\s+([^:\[\s]+)(?:\[(\d+)\])?:\s*(.*)$`.
The optional `\[(\d+)\]` group: if `[` follows the tag it must complete as
all-digit bracket followed by `:` (skipping it would put `:` against `[`,
which fails).  The final `\s*(.*)$` succeeds on a stripped string exactly
when the remainder after the greedy whitespace munch contains no newline. -/
def match3164 (l : List Char) : Option G3164 :=
  match expectC '<' l with
  | none => none
  | some r0 =>
  match munch1 isDigitC r0 with
  | none => none
  | some (pri, r1) =>
  match expectC '>' r1 with
  | none => none
  | some r2 =>
  match matchTs r2 with
  | none => none
  | some (ts, r3) =>
  match munch1 isWs r3 with
  | none => none
  | some (_, r4) =>
  match munch1 (fun c => !isWs c) r4 with
  | none => none
  | some (host, r5) =>
  match munch1 isWs r5 with
  | none => none
  | some (_, r6) =>
  match munch1 isTagC r6 with
  | none => none
  | some (tag, r7) =>
  match r7 with
  | c :: r8 =>
    if c = '[' then
      match munch1 isDigitC r8 with
      | none => none
      | some (pid, r9) =>
      match expectC ']' r9 with
      | none => none
      | some r10 =>
      match expectC ':' r10 with
      | none => none
      | some r11 =>
        let rest := r11.dropWhile isWs
        if rest.contains '\n' then none
        else some ⟨pri, ts, host, tag, some pid, rest⟩
    else if c = ':' then
      let rest := r8.dropWhile isWs
      if rest.contains '\n' then none
      else some ⟨pri, ts, host, tag, none, rest⟩
    else none
  | [] => none

/-- The captured groups of `RFC5424Parser.RFC5424_PATTERN`. -/
structure G5424 where
  pri : List Char
  ver : List Char
  ts : List Char
  host : List Char
  app : List Char
  proc : List Char
  msgid : List Char
  sd : List Char
  msg : List Char
deriving DecidableEq

/-- One structured-data element `\[.*?\]`: lazy munch up to the first `]`
(`.` cannot cross a newline). -/
def sdElem (l : List Char) : Option (List Char × List Char) :=
  match l with
  | '[' :: r =>
    (match r.dropWhile (fun c => !(c = ']' || c = '\n')) with
     | ']' :: r2 => some ('[' :: r.takeWhile (fun c => !(c = ']' || c = '\n')) ++ [']'], r2)
     | _ => none)
  | _ => none

/-- The greedy star `(?:\[.*?\])*`: keep taking elements while one matches
(fuel-indexed on the list length so the kernel can evaluate it). -/
def sdManyAux : Nat → List Char → List Char × List Char
  | 0, l => ([], l)
  | fuel + 1, l =>
    match sdElem l with
    | some (e, r) =>
      let er := sdManyAux fuel r
      (e ++ er.1, er.2)
    | none => ([], l)

/-- `re.match` of `RFC5424_PATTERN` on an already-stripped input:
`^<(\d+)>(\d+)\s+(\S+)\s+(\S+)\s+(\S+)\s+(\S+)\s+(\S+)\s+(-|\[.*?\](?:\[.*?\])*)\s*(.*)$`.
The alternation tries the literal `-` first and commits to it. -/
def match5424 (l : List Char) : Option G5424 :=
  match expectC '<' l with
  | none => none
  | some r0 =>
  match munch1 isDigitC r0 with
  | none => none
  | some (pri, r1) =>
  match expectC '>' r1 with
  | none => none
  | some r2 =>
  match munch1 isDigitC r2 with
  | none => none
  | some (ver, r3) =>
  match munch1 isWs r3 with
  | none => none
  | some (_, r4) =>
  match munch1 (fun c => !isWs c) r4 with
  | none => none
  | some (ts, r5) =>
  match munch1 isWs r5 with
  | none => none
  | some (_, r6) =>
  match munch1 (fun c => !isWs c) r6 with
  | none => none
  | some (host, r7) =>
  match munch1 isWs r7 with
  | none => none
  | some (_, r8) =>
  match munch1 (fun c => !isWs c) r8 with
  | none => none
  | some (app, r9) =>
  match munch1 isWs r9 with
  | none => none
  | some (_, r10) =>
  match munch1 (fun c => !isWs c) r10 with
  | none => none
  | some (proc, r11) =>
  match munch1 isWs r11 with
  | none => none
  | some (_, r12) =>
  match munch1 (fun c => !isWs c) r12 with
  | none => none
  | some (msgid, r13) =>
  match munch1 isWs r13 with
  | none => none
  | some (_, r14) =>
  match r14 with
  | '-' :: r15 =>
    let rest := r15.dropWhile isWs
    if rest.contains '\n' then none
    else some ⟨pri, ver, ts, host, app, proc, msgid, ['-'], rest⟩
  | _ =>
    match sdElem r14 with
    | none => none
    | some (e, r15) =>
      let er := sdManyAux r15.length r15
      let rest := er.2.dropWhile isWs
      if rest.contains '\n' then none
      else some ⟨pri, ver, ts, host, app, proc, msgid, e ++ er.1, rest⟩

namespace RFC3164Parser

/-- The `MONTHS` dictionary of `RFC3164Parser`, as used by
`MONTHS.get(month_name)` (case-sensitive English abbreviations). -/
def MONTHS (s : String) : Option Int :=
  match s with
  | "Jan" => some 1 | "Feb" => some 2 | "Mar" => some 3 | "Apr" => some 4
  | "May" => some 5 | "Jun" => some 6 | "Jul" => some 7 | "Aug" => some 8
  | "Sep" => some 9 | "Oct" => some 10 | "Nov" => some 11 | "Dec" => some 12
  | _ => none

/-- `RFC3164Parser.parse_priority`: `facility = priority >> 3`,
`severity = priority & 7` (Python's arithmetic shift and bitmask on a
possibly-negative `int` are floor division and floor modulus, which `Int`'s
`/` and `%` compute for the positive divisor 8). -/
def parse_priority (priority : Int) : Int × Int :=
  (priority / 8, priority % 8)

/-- `RFC3164Parser.parse_timestamp`: split the captured timestamp on
whitespace into month name, day and time, look the month up in `MONTHS`,
parse `HH:MM:SS`, validate via the `datetime` constructor with the ambient
current year, and return the ISO 8601 rendering.  All `ValueError`s
(including the wrapped `datetime` and `int` errors) surface as
`.error "Invalid timestamp format: ..."`. -/
def parse_timestamp (year : Int) (timestamp_str : String) : Except String String :=
  match pySplit timestamp_str.data with
  | mon :: dayS :: timeS :: _ =>
    (match pyInt dayS with
     | none => Except.error "Invalid timestamp format"
     | some day =>
       match MONTHS (String.mk mon) with
       | none => Except.error ("Invalid timestamp format: Invalid month: " ++ String.mk mon)
       | some month =>
         match splitColon timeS with
         | [a, b, c] =>
           (match pyInt a, pyInt b, pyInt c with
            | some hour, some minute, some second =>
              if validDateTime year month day hour minute second then
                Except.ok (isoCore year month day hour minute second)
              else Except.error "Invalid timestamp format"
            | _, _, _ => Except.error "Invalid timestamp format")
         | _ => Except.error "Invalid timestamp format")
  | _ => Except.error "Invalid timestamp format"

/-- `RFC3164Parser.parse`: strip, match `RFC3164_PATTERN`, decode priority,
normalise the timestamp, and build the `RFC3164SyslogMessage`; a PID group
is carried through as text (`pid_str if pid_str else None`). -/
def parse (year : Int) (raw_message : String) : Except String RFC3164SyslogMessage :=
  match match3164 (pyStrip raw_message.data) with
  | none => Except.error "Invalid RFC 3164 syslog format"
  | some g =>
    let priority : Int := Int.ofNat (digitsToNat g.pri)
    let fs := parse_priority priority
    match parse_timestamp year (String.mk g.ts) with
    | Except.error e => Except.error ("Parsing error: " ++ e)
    | Except.ok ts =>
      Except.ok
        { priority := priority
          facility := fs.1
          severity := fs.2
          timestamp := ts
          hostname := String.mk g.host
          tag := String.mk g.tag
          pid := match g.pid with
                 | some p => if p = [] then none else some (String.mk p)
                 | none => none
          message := String.mk g.msg }

end RFC3164Parser

namespace RFC5424Parser

/-- `RFC5424Parser.parse_priority` (identical to the RFC 3164 one). -/
def parse_priority (priority : Int) : Int × Int :=
  (priority / 8, priority % 8)

/-- The nil-value convention of `RFC5424Parser.parse`:
`None if token == "-" else token`. -/
def nilMap (s : String) : Option String :=
  if s = "-" then none else some s

/-- `RFC5424Parser.parse`: strip, match `RFC5424_PATTERN`, decode priority
and version, map `-` tokens of APP-NAME / PROC-ID / MSG-ID /
STRUCTURED-DATA to `None`, pass the timestamp through verbatim, and build
the `RFC5424SyslogMessage` (PROC-ID lands in the `pid` slot). -/
def parse (raw_message : String) : Except String RFC5424SyslogMessage :=
  match match5424 (pyStrip raw_message.data) with
  | none => Except.error "Invalid RFC 5424 syslog format"
  | some g =>
    let priority : Int := Int.ofNat (digitsToNat g.pri)
    let version : Int := Int.ofNat (digitsToNat g.ver)
    let fs := parse_priority priority
    Except.ok
      { priority := priority
        facility := fs.1
        severity := fs.2
        version := version
        timestamp := String.mk g.ts
        hostname := String.mk g.host
        app_name := nilMap (String.mk g.app)
        pid := nilMap (String.mk g.proc)
        msg_id := nilMap (String.mk g.msgid)
        structured_data := nilMap (String.mk g.sd)
        message := String.mk g.msg }

end RFC5424Parser

/-- Python truthiness defaulting `x or d` on an `Optional[str]`:
`None` and the empty string both fall back to the default. -/
def truthyStr (o : Option String) (d : String) : String :=
  match o with
  | some s => if s = "" then d else s
  | none => d

namespace RFC3164MessageGenerator

/-- The `months` abbreviation table of `RFC3164MessageGenerator`. -/
def months : List String :=
  ["Jan", "Feb", "Mar", "Apr", "May", "Jun",
   "Jul", "Aug", "Sep", "Oct", "Nov", "Dec"]

/-- `RFC3164MessageGenerator.generate_priority`:
`(facility << 3) + severity` (a Python left shift is multiplication by 8
for every `int`). -/
def generate_priority (facility severity : Int) : Int :=
  facility * 8 + severity

/-- `RFC3164MessageGenerator.generate_timestamp`:
`f"{months[now.month-1]} {now.day:2d} {now.strftime('%H:%M:%S')}"`
(day right-aligned to width 2 with a space, time zero-padded). -/
def generate_timestamp (now : PyDateTime) : String :=
  months.getD (now.month - 1).toNat "" ++ " " ++
  (if now.day < 10 then " " ++ intToString now.day else intToString now.day) ++ " " ++
  pad2 now.hour ++ ":" ++ pad2 now.minute ++ ":" ++ pad2 now.second

/-- The priority resolution of `RFC3164MessageGenerator.generate` (and,
identically, of the RFC 5424 generator): the explicit priority if given,
else `generate_priority(facility, severity)` if both are given, else the
literal default 34. -/
def resolvedPriority (c : MessageComponents) : Int :=
  match c.priority with
  | some p => p
  | none =>
    match c.facility, c.severity with
    | some f, some s => generate_priority f s
    | _, _ => 34

/-- The timestamp resolution of `RFC3164MessageGenerator.generate`:
`components.timestamp if components.timestamp else generate_timestamp()`
(truthiness: an empty string also falls back). -/
def resolvedTimestamp (now : PyDateTime) (c : MessageComponents) : String :=
  match c.timestamp with
  | some t => if t = "" then generate_timestamp now else t
  | none => generate_timestamp now

/-- The PID segment of `RFC3164MessageGenerator.generate`:
`f"[{components.pid}]" if components.pid else ""` (0 and `None` are both
falsy). -/
def pidSegment (c : MessageComponents) : String :=
  match c.pid with
  | some p => if p = 0 then "" else "[" ++ intToString p ++ "]"
  | none => ""

/-- `RFC3164MessageGenerator.generate`:
`f"<{priority}>{timestamp} {hostname} {tag}{pid_str}: {message}"`. -/
def generate (now : PyDateTime) (c : MessageComponents) : String :=
  "<" ++ intToString (resolvedPriority c) ++ ">" ++ resolvedTimestamp now c ++ " " ++
  truthyStr c.hostname "localhost" ++ " " ++ truthyStr c.tag "app" ++
  pidSegment c ++ ": " ++ truthyStr c.message ""

end RFC3164MessageGenerator

namespace RFC5424MessageGenerator

/-- `RFC5424MessageGenerator.generate_priority` (identical to the RFC 3164
one). -/
def generate_priority (facility severity : Int) : Int :=
  facility * 8 + severity

/-- `RFC5424MessageGenerator.generate_timestamp`:
`datetime.datetime.now().isoformat() + "Z"` — a literal `Z` appended to the
local-time ISO string. -/
def generate_timestamp (now : PyDateTime) : String :=
  isoCore now.year now.month now.day now.hour now.minute now.second ++
  (if now.micro = 0 then "" else "." ++ pad6 now.micro) ++ "Z"

/-- The timestamp resolution of `RFC5424MessageGenerator.generate`. -/
def resolvedTimestamp (now : PyDateTime) (c : MessageComponents) : String :=
  match c.timestamp with
  | some t => if t = "" then generate_timestamp now else t
  | none => generate_timestamp now

/-- `RFC5424MessageGenerator.generate`:
`f"<{priority}>{version} {timestamp} {hostname} {app_name} {proc_id} {msg_id} {structured_data} {message}"`
with version always 1 and `-` nil defaults. -/
def generate (now : PyDateTime) (c : MessageComponents) : String :=
  "<" ++ intToString (RFC3164MessageGenerator.resolvedPriority c) ++ ">" ++
  intToString 1 ++ " " ++ resolvedTimestamp now c ++ " " ++
  truthyStr c.hostname "localhost" ++ " " ++ truthyStr c.app_name "-" ++ " " ++
  truthyStr c.proc_id "-" ++ " " ++ truthyStr c.msg_id "-" ++ " " ++
  truthyStr c.structured_data "-" ++ " " ++ truthyStr c.message ""

end RFC5424MessageGenerator

namespace generator_service

/-- `generator_service.generate`: route on `rfc_version == "5424"`,
everything else goes to the RFC 3164 generator. -/
def generate (rfc_version : String) (now : PyDateTime) (components : MessageComponents) : String :=
  if rfc_version = "5424" then RFC5424MessageGenerator.generate now components
  else RFC3164MessageGenerator.generate now components

end generator_service

/-- The common supertype `SyslogMessage` result of `parse_service.parse`,
as a sum of the two concrete message models. -/
inductive ParsedSyslog where
  | v3164 (m : RFC3164SyslogMessage)
  | v5424 (m : RFC5424SyslogMessage)
deriving DecidableEq

namespace parse_service

/-- `parse_service.parse`: route on `version == "5424"`, everything else
goes to the RFC 3164 parser. -/
def parse (version : String) (year : Int) (msg : String) : Except String ParsedSyslog :=
  if version = "5424" then (RFC5424Parser.parse msg).map ParsedSyslog.v5424
  else (RFC3164Parser.parse year msg).map ParsedSyslog.v3164

end parse_service

/-- The rendered optional PID bracket of a generated RFC 3164 message, at
the character-list level. -/
def pidChunk : Option (List Char) → List Char
  | some p => '[' :: p ++ [']']
  | none => []

/-- Boolean shape conditions for one decomposition of an RFC 3164 timestamp
(month word, whitespace, 1–2 digit day, whitespace, `HH:MM:SS`) together
with the month-table and calendar checks of `parse_timestamp`. -/
def tsPieces (year : Int) (mon sp1 d sp2 hh mm ss : List Char) (m : Int) : Bool :=
  decide (mon.length = 3) && mon.all isWordC &&
  !sp1.isEmpty && sp1.all isWs &&
  !d.isEmpty && decide (d.length ≤ 2) && d.all isDigitC &&
  !sp2.isEmpty && sp2.all isWs &&
  decide (hh.length = 2) && hh.all isDigitC &&
  decide (mm.length = 2) && mm.all isDigitC &&
  decide (ss.length = 2) && ss.all isDigitC &&
  (RFC3164Parser.MONTHS (String.mk mon) == some m) &&
  validDateTime year m (Int.ofNat (digitsToNat d)) (Int.ofNat (digitsToNat hh))
    (Int.ofNat (digitsToNat mm)) (Int.ofNat (digitsToNat ss))

/-- A timestamp string that matches the RFC 3164 timestamp group and passes
`parse_timestamp`'s month and calendar validation for the given year. -/
def Ts3164Shape (year : Int) (ts : List Char) : Prop :=
  ∃ mon sp1 d sp2 hh mm ss m,
    ts = mon ++ (sp1 ++ (d ++ (sp2 ++ (hh ++ (':' :: (mm ++ (':' :: ss))))))) ∧
    tsPieces year mon sp1 d sp2 hh mm ss m = true

/-- Boolean well-formedness of the non-timestamp components fed to the
RFC 3164 generator, as required for the generated line to lie in the
parser's grammar: non-negative renderable priority, a hostname token free
of whitespace, a tag free of `:`/`[`/whitespace, a non-negative pid, and a
message with no newline and no leading or trailing whitespace. -/
def componentsOk (c : MessageComponents) : Bool :=
  let host := (truthyStr c.hostname "localhost").data
  let tg := (truthyStr c.tag "app").data
  let msg := (truthyStr c.message "").data
  decide (0 ≤ RFC3164MessageGenerator.resolvedPriority c) &&
  !host.isEmpty && host.all (fun ch => !isWs ch) &&
  !tg.isEmpty && tg.all isTagC &&
  (match c.pid with
   | some p => decide (0 ≤ p)
   | none => true) &&
  (match msg.head? with
   | some ch => !isWs ch
   | none => true) &&
  (match msg.getLast? with
   | some ch => !isWs ch
   | none => true) &&
  !msg.contains '\n'

/-- Validity of a `MessageComponents` for the RFC 3164 generate→parse
round trip: the resolved fields respect the wire grammar and the resolved
timestamp is a well-formed RFC 3164 timestamp for the current year. -/
def Valid3164 (now : PyDateTime) (c : MessageComponents) : Prop :=
  componentsOk c = true ∧
  Ts3164Shape now.year (RFC3164MessageGenerator.resolvedTimestamp now c).data

end SyslogTester

deriving instance DecidableEq for Except

namespace SyslogTester

set_option maxHeartbeats 1000000

theorem isWs_iff (c : Char) :
    isWs c = true ↔
      c = ' ' ∨ c = '\t' ∨ c = '\n' ∨ c = '\x0b' ∨ c = '\x0c' ∨ c = '\r' := by
  simp [isWs]
  tauto

theorem not_ws_of_digit {c : Char} (h : isDigitC c = true) : isWs c = false := by
  cases hws : isWs c with
  | false => rfl
  | true =>
    rcases (isWs_iff c).mp hws with rfl | rfl | rfl | rfl | rfl | rfl <;>
      exact absurd h (by decide)

theorem not_ws_of_word {c : Char} (h : isWordC c = true) : isWs c = false := by
  cases hws : isWs c with
  | false => rfl
  | true =>
    rcases (isWs_iff c).mp hws with rfl | rfl | rfl | rfl | rfl | rfl <;>
      exact absurd h (by decide)

theorem not_ws_of_tag {c : Char} (h : isTagC c = true) : isWs c = false := by
  cases hws : isWs c with
  | false => rfl
  | true =>
    unfold isTagC at h
    rw [hws] at h
    simp at h

theorem not_digit_of_ws {c : Char} (h : isWs c = true) : isDigitC c = false := by
  rcases (isWs_iff c).mp h with rfl | rfl | rfl | rfl | rfl | rfl <;> decide

theorem takeWhile_append_of {p : Char → Bool} :
    ∀ (xs ys : List Char), (∀ c ∈ xs, p c = true) →
      (∀ c, ys.head? = some c → p c = false) →
      (xs ++ ys).takeWhile p = xs ∧ (xs ++ ys).dropWhile p = ys
  | [], ys, _, hy => by
    cases ys with
    | nil => exact ⟨rfl, rfl⟩
    | cons a l => simp [List.takeWhile_cons, List.dropWhile_cons, hy a rfl]
  | x :: xs, ys, hx, hy => by
    have hpx : p x = true := hx x (by simp)
    have ih := takeWhile_append_of xs ys (fun c hc => hx c (by simp [hc])) hy
    simp [List.takeWhile_cons, List.dropWhile_cons, hpx, ih.1, ih.2]

theorem munch1_append {p : Char → Bool} (xs ys : List Char) (hne : xs ≠ [])
    (hx : ∀ c ∈ xs, p c = true) (hy : ∀ c, ys.head? = some c → p c = false) :
    munch1 p (xs ++ ys) = some (xs, ys) := by
  have h := takeWhile_append_of xs ys hx hy
  unfold munch1
  rw [h.1, h.2, if_neg hne]

theorem takeN_append {p : Char → Bool} :
    ∀ (xs ys : List Char), (∀ c ∈ xs, p c = true) →
      takeN p xs.length (xs ++ ys) = some (xs, ys)
  | [], _, _ => rfl
  | x :: xs, ys, hx => by
    have hpx : p x = true := hx x (by simp)
    simp [takeN, hpx, takeN_append xs ys (fun c hc => hx c (by simp [hc]))]

theorem matchTs_of_shape (mon sp1 d sp2 hh mm ss r : List Char)
    (hm3 : mon.length = 3) (hmw : ∀ c ∈ mon, isWordC c = true)
    (hsp1 : sp1 ≠ []) (hsp1w : ∀ c ∈ sp1, isWs c = true)
    (hd : d ≠ []) (hd2 : d.length ≤ 2) (hdd : ∀ c ∈ d, isDigitC c = true)
    (hsp2 : sp2 ≠ []) (hsp2w : ∀ c ∈ sp2, isWs c = true)
    (hhh : hh.length = 2) (hhd : ∀ c ∈ hh, isDigitC c = true)
    (hmml : mm.length = 2) (hmd : ∀ c ∈ mm, isDigitC c = true)
    (hssl : ss.length = 2) (hsd : ∀ c ∈ ss, isDigitC c = true) :
    matchTs (mon ++ sp1 ++ d ++ sp2 ++ hh ++ ':' :: mm ++ ':' :: ss ++ r) =
      some (mon ++ sp1 ++ d ++ sp2 ++ hh ++ ':' :: mm ++ ':' :: ss, r) := by
  obtain ⟨dc, dtl, rfl⟩ := List.exists_cons_of_ne_nil hd
  obtain ⟨sc, stl, rfl⟩ := List.exists_cons_of_ne_nil hsp2
  obtain ⟨ha, hb, rfl⟩ : ∃ a b, hh = [a, b] := by
    match hh, hhh with
    | [a, b], _ => exact ⟨a, b, rfl⟩
  obtain ⟨ma, mb, rfl⟩ : ∃ a b, mm = [a, b] := by
    match mm, hmml with
    | [a, b], _ => exact ⟨a, b, rfl⟩
  have h1 : takeN isWordC 3 (mon ++ (sp1 ++ ((dc :: dtl) ++ ((sc :: stl) ++ ([ha, hb] ++ ':' :: [ma, mb] ++ ':' :: ss ++ r))))) =
      some (mon, sp1 ++ ((dc :: dtl) ++ ((sc :: stl) ++ ([ha, hb] ++ ':' :: [ma, mb] ++ ':' :: ss ++ r)))) := by
    have h := takeN_append mon (sp1 ++ ((dc :: dtl) ++ ((sc :: stl) ++ ([ha, hb] ++ ':' :: [ma, mb] ++ ':' :: ss ++ r)))) hmw
    rw [hm3] at h
    exact h
  have h2 : munch1 isWs (sp1 ++ ((dc :: dtl) ++ ((sc :: stl) ++ ([ha, hb] ++ ':' :: [ma, mb] ++ ':' :: ss ++ r)))) =
      some (sp1, (dc :: dtl) ++ ((sc :: stl) ++ ([ha, hb] ++ ':' :: [ma, mb] ++ ':' :: ss ++ r))) := by
    refine munch1_append _ _ hsp1 hsp1w ?_
    intro c hc
    simp only [List.cons_append, List.head?_cons, Option.some.injEq] at hc
    subst hc
    exact not_ws_of_digit (hdd dc (by simp))
  have h3 : munch1 isDigitC ((dc :: dtl) ++ ((sc :: stl) ++ ([ha, hb] ++ ':' :: [ma, mb] ++ ':' :: ss ++ r))) =
      some (dc :: dtl, (sc :: stl) ++ ([ha, hb] ++ ':' :: [ma, mb] ++ ':' :: ss ++ r)) := by
    refine munch1_append _ _ (by simp) hdd ?_
    intro c hc
    simp only [List.cons_append, List.head?_cons, Option.some.injEq] at hc
    subst hc
    exact not_digit_of_ws (hsp2w sc (by simp))
  have h4 : munch1 isWs ((sc :: stl) ++ ([ha, hb] ++ ':' :: [ma, mb] ++ ':' :: ss ++ r)) =
      some (sc :: stl, [ha, hb] ++ ':' :: [ma, mb] ++ ':' :: ss ++ r) := by
    refine munch1_append _ _ (by simp) hsp2w ?_
    intro c hc
    simp only [List.cons_append, List.head?_cons, Option.some.injEq] at hc
    subst hc
    exact not_ws_of_digit (hhd ha (by simp))
  have h5 : takeN isDigitC 2 ([ha, hb] ++ ':' :: [ma, mb] ++ ':' :: ss ++ r) =
      some ([ha, hb], ':' :: [ma, mb] ++ ':' :: ss ++ r) :=
    takeN_append [ha, hb] _ hhd
  have h6 : takeN isDigitC 2 ([ma, mb] ++ ':' :: ss ++ r) =
      some ([ma, mb], ':' :: ss ++ r) :=
    takeN_append [ma, mb] _ hmd
  have h7 : takeN isDigitC 2 (ss ++ r) = some (ss, r) := by
    have h := takeN_append ss r hsd
    rw [hssl] at h
    exact h
  unfold matchTs
  simp only [List.cons_append, List.append_assoc, List.nil_append] at h1 h2 h3 h4 h5 h6 h7 ⊢
  simp only [h1, h2, h3]
  rw [if_pos hd2]
  simp only [h4, h5,
    show expectC ':' (':' :: ma :: mb :: ':' :: (ss ++ r)) = some (ma :: mb :: ':' :: (ss ++ r)) from rfl,
    h6,
    show expectC ':' (':' :: (ss ++ r)) = some (ss ++ r) from rfl,
    h7]
  simp [List.append_assoc, List.cons_append]

theorem expectC_cons (c : Char) (l : List Char) : expectC c (c :: l) = some l := by
  simp [expectC]

theorem match3164_of_shape (pri ts host tg rest : List Char) (pidO : Option (List Char))
    (hpri : pri ≠ []) (hprid : ∀ c ∈ pri, isDigitC c = true)
    (hts : ∀ r, matchTs (ts ++ r) = some (ts, r))
    (hhost : host ≠ []) (hhostw : ∀ c ∈ host, isWs c = false)
    (htag : tg ≠ []) (htagc : ∀ c ∈ tg, isTagC c = true)
    (hpid : ∀ p, pidO = some p → p ≠ [] ∧ ∀ c ∈ p, isDigitC c = true)
    (hnl : (rest.dropWhile isWs).contains '\n' = false) :
    match3164 ('<' :: (pri ++ ('>' :: (ts ++ (' ' :: (host ++ (' ' :: (tg ++ (pidChunk pidO ++ (':' :: rest))))))))))
      = some ⟨pri, ts, host, tg, pidO, rest.dropWhile isWs⟩ := by
  obtain ⟨hc, htl, rfl⟩ := List.exists_cons_of_ne_nil hhost
  obtain ⟨tc, ttl, rfl⟩ := List.exists_cons_of_ne_nil htag
  have hyd : ∀ c : Char, ('>' :: (ts ++ (' ' :: ((hc :: htl) ++ (' ' :: ((tc :: ttl) ++ (pidChunk pidO ++ (':' :: rest)))))))).head? = some c → isDigitC c = false := by
    intro c hcx
    simp only [List.head?_cons, Option.some.injEq] at hcx
    subst hcx
    decide
  have h1 := munch1_append pri ('>' :: (ts ++ (' ' :: ((hc :: htl) ++ (' ' :: ((tc :: ttl) ++ (pidChunk pidO ++ (':' :: rest)))))))) hpri hprid hyd
  have h2 := hts (' ' :: ((hc :: htl) ++ (' ' :: ((tc :: ttl) ++ (pidChunk pidO ++ (':' :: rest))))))
  have h3 : munch1 isWs (' ' :: ((hc :: htl) ++ (' ' :: ((tc :: ttl) ++ (pidChunk pidO ++ (':' :: rest)))))) =
      some ([' '], (hc :: htl) ++ (' ' :: ((tc :: ttl) ++ (pidChunk pidO ++ (':' :: rest))))) := by
    refine munch1_append [' '] _ (by simp) (by intro c hcm; simp at hcm; subst hcm; decide) ?_
    intro c hcx
    simp only [List.cons_append, List.head?_cons, Option.some.injEq] at hcx
    subst hcx
    exact hhostw hc (by simp)
  have h4 : munch1 (fun c => !isWs c) ((hc :: htl) ++ (' ' :: ((tc :: ttl) ++ (pidChunk pidO ++ (':' :: rest))))) =
      some (hc :: htl, ' ' :: ((tc :: ttl) ++ (pidChunk pidO ++ (':' :: rest)))) := by
    refine munch1_append _ _ (by simp) (by intro c hcm; simp [hhostw c hcm]) ?_
    intro c hcx
    simp only [List.head?_cons, Option.some.injEq] at hcx
    subst hcx
    decide
  have h5 : munch1 isWs (' ' :: ((tc :: ttl) ++ (pidChunk pidO ++ (':' :: rest)))) =
      some ([' '], (tc :: ttl) ++ (pidChunk pidO ++ (':' :: rest))) := by
    refine munch1_append [' '] _ (by simp) (by intro c hcm; simp at hcm; subst hcm; decide) ?_
    intro c hcx
    simp only [List.cons_append, List.head?_cons, Option.some.injEq] at hcx
    subst hcx
    exact not_ws_of_tag (htagc tc (by simp))
  have h6 : munch1 isTagC ((tc :: ttl) ++ (pidChunk pidO ++ (':' :: rest))) =
      some (tc :: ttl, pidChunk pidO ++ (':' :: rest)) := by
    refine munch1_append _ _ (by simp) htagc ?_
    intro c hcx
    rcases pidO with _ | p
    · simp only [pidChunk, List.nil_append, List.head?_cons, Option.some.injEq] at hcx
      subst hcx
      decide
    · simp only [pidChunk, List.cons_append, List.head?_cons, Option.some.injEq] at hcx
      subst hcx
      decide
  unfold match3164
  simp only [List.cons_append, List.append_assoc, List.nil_append] at h1 h2 h3 h4 h5 h6 ⊢
  simp only [expectC_cons, h1, h2, h3, h4, h5, h6]
  rcases pidO with _ | p
  · simp only [pidChunk, List.nil_append]
    simp [expectC_cons]
    simpa using hnl
  · obtain ⟨hpne, hpd⟩ := hpid p rfl
    obtain ⟨pc, ptl, rfl⟩ := List.exists_cons_of_ne_nil hpne
    have h7 : munch1 isDigitC ((pc :: ptl) ++ (']' :: (':' :: rest))) =
        some (pc :: ptl, ']' :: (':' :: rest)) := by
      refine munch1_append _ _ (by simp) hpd ?_
      intro c hcx
      simp only [List.head?_cons, Option.some.injEq] at hcx
      subst hcx
      decide
    simp only [pidChunk, List.cons_append, List.append_assoc, List.nil_append] at h7 ⊢
    simp [h7, expectC_cons]
    simpa using hnl

theorem digit_char_val {k : Nat} (hk : k < 10) :
    (Char.ofNat (48 + k)).toNat = 48 + k ∧ isDigitC (Char.ofNat (48 + k)) = true := by
  interval_cases k <;> exact ⟨by decide, by decide⟩

theorem digitsToNat_append_last (xs : List Char) (c : Char) :
    digitsToNat (xs ++ [c]) = 10 * digitsToNat xs + (c.toNat - 48) := by
  simp [digitsToNat, List.foldl_append]

theorem natToDigitsAux_spec : ∀ (fuel n : Nat), n < fuel →
    digitsToNat (natToDigitsAux fuel n) = n ∧
    natToDigitsAux fuel n ≠ [] ∧
    ∀ c ∈ natToDigitsAux fuel n, isDigitC c = true := by
  intro fuel
  induction fuel with
  | zero => intro n h; omega
  | succ f ih =>
    intro n h
    by_cases h10 : n < 10
    · unfold natToDigitsAux
      rw [if_pos h10]
      refine ⟨?_, by simp, ?_⟩
      · have hv := (digit_char_val h10).1
        simp [digitsToNat, hv]
      · intro c hc
        simp only [List.mem_singleton] at hc
        subst hc
        exact (digit_char_val h10).2
    · unfold natToDigitsAux
      rw [if_neg h10]
      have hrec := ih (n / 10) (by omega)
      have hmod : n % 10 < 10 := Nat.mod_lt _ (by norm_num)
      refine ⟨?_, by simp, ?_⟩
      · rw [digitsToNat_append_last, hrec.1, (digit_char_val hmod).1]
        omega
      · intro c hc
        rcases List.mem_append.mp hc with hc | hc
        · exact hrec.2.2 c hc
        · simp only [List.mem_singleton] at hc
          subst hc
          exact (digit_char_val hmod).2

theorem natToDigits_spec (n : Nat) :
    digitsToNat (natToDigits n) = n ∧ natToDigits n ≠ [] ∧
    ∀ c ∈ natToDigits n, isDigitC c = true :=
  natToDigitsAux_spec (n + 1) n (by omega)

theorem natToDigitsAux_single {fuel m : Nat} (hm : m < 10) (hf : 0 < fuel) :
    natToDigitsAux fuel m = [Char.ofNat (48 + m)] := by
  cases fuel with
  | zero => omega
  | succ f =>
    unfold natToDigitsAux
    rw [if_pos hm]

theorem natToDigits_len_le2 {n : Nat} (h : n < 100) : (natToDigits n).length ≤ 2 := by
  unfold natToDigits
  by_cases h10 : n < 10
  · rw [natToDigitsAux_single h10 (by omega)]
    simp
  · unfold natToDigitsAux
    rw [if_neg h10]
    rw [natToDigitsAux_single (show n / 10 < 10 by omega) (by omega)]
    simp

theorem intToString_nonneg_data {p : Int} (hp : 0 ≤ p) :
    (intToString p).data = natToDigits p.toNat := by
  unfold intToString
  rw [if_neg (by omega)]

theorem int_digits_roundtrip {p : Int} (hp : 0 ≤ p) :
    Int.ofNat (digitsToNat (intToString p).data) = p := by
  rw [intToString_nonneg_data hp, (natToDigits_spec _).1]
  exact Int.toNat_of_nonneg hp

theorem pySplitAux_token : ∀ (w r acc : List Char), (∀ c ∈ w, isWs c = false) →
    pySplitAux (w ++ r) acc = pySplitAux r (w.reverse ++ acc)
  | [], r, acc, _ => by simp
  | c :: w, r, acc, hw => by
    have hwc : isWs c = false := hw c (by simp)
    simp only [List.cons_append, pySplitAux, hwc, Bool.false_eq_true, if_false, List.append_eq]
    rw [pySplitAux_token w r (c :: acc) (fun x hx => hw x (by simp [hx]))]
    simp [List.append_assoc]

theorem pySplitAux_ws_skip : ∀ (sp r : List Char), (∀ c ∈ sp, isWs c = true) →
    pySplitAux (sp ++ r) [] = pySplitAux r []
  | [], _, _ => by simp
  | c :: sp, r, hw => by
    have hwc : isWs c = true := hw c (by simp)
    simp only [List.cons_append, pySplitAux, hwc, if_true, List.append_eq]
    exact pySplitAux_ws_skip sp r (fun x hx => hw x (by simp [hx]))

theorem pySplitAux_ws_emit (sp r acc : List Char) (hsp : sp ≠ [])
    (hw : ∀ c ∈ sp, isWs c = true) (hacc : acc ≠ []) :
    pySplitAux (sp ++ r) acc = acc.reverse :: pySplitAux r [] := by
  obtain ⟨c, sp', rfl⟩ := List.exists_cons_of_ne_nil hsp
  have hwc : isWs c = true := hw c (by simp)
  simp only [List.cons_append, pySplitAux, hwc, if_true, List.append_eq]
  rw [if_neg hacc]
  rw [pySplitAux_ws_skip sp' r (fun x hx => hw x (by simp [hx]))]

theorem pySplitAux_final (w acc : List Char) (hw : ∀ c ∈ w, isWs c = false)
    (hne : w ≠ [] ∨ acc ≠ []) :
    pySplitAux w acc = [(acc.reverse ++ w : List Char)] := by
  have h := pySplitAux_token w [] acc hw
  rw [List.append_nil] at h
  rw [h]
  unfold pySplitAux
  rw [if_neg (by rcases hne with h | h <;> simp [h])]
  simp

theorem pySplit_three (a sp1 b sp2 c3 : List Char)
    (ha : a ≠ []) (haw : ∀ x ∈ a, isWs x = false)
    (hsp1 : sp1 ≠ []) (hsp1w : ∀ x ∈ sp1, isWs x = true)
    (hb : b ≠ []) (hbw : ∀ x ∈ b, isWs x = false)
    (hsp2 : sp2 ≠ []) (hsp2w : ∀ x ∈ sp2, isWs x = true)
    (hc : c3 ≠ []) (hcw : ∀ x ∈ c3, isWs x = false) :
    pySplit (a ++ (sp1 ++ (b ++ (sp2 ++ c3)))) = [a, b, c3] := by
  unfold pySplit
  rw [pySplitAux_token a _ [] haw]
  rw [pySplitAux_ws_emit sp1 _ _ hsp1 hsp1w (by simp [ha])]
  rw [pySplitAux_token b _ [] hbw]
  rw [pySplitAux_ws_emit sp2 _ _ hsp2 hsp2w (by simp [hb])]
  rw [pySplitAux_final c3 [] hcw (Or.inl hc)]
  simp

theorem splitColonAux_token : ∀ (w r acc : List Char), (∀ c ∈ w, c ≠ ':') →
    splitColonAux (w ++ r) acc = splitColonAux r (w.reverse ++ acc)
  | [], r, acc, _ => by simp
  | c :: w, r, acc, hw => by
    have hwc : c ≠ ':' := hw c (by simp)
    simp only [List.cons_append, splitColonAux, List.append_eq]
    rw [if_neg hwc]
    rw [splitColonAux_token w r (c :: acc) (fun x hx => hw x (by simp [hx]))]
    simp [List.append_assoc]

theorem splitColon_three (x y z : List Char)
    (hx : ∀ c ∈ x, c ≠ ':') (hy : ∀ c ∈ y, c ≠ ':') (hz : ∀ c ∈ z, c ≠ ':') :
    splitColon (x ++ (':' :: (y ++ (':' :: z)))) = [x, y, z] := by
  unfold splitColon
  rw [splitColonAux_token x _ [] hx]
  simp only [splitColonAux, if_pos rfl]
  rw [splitColonAux_token y _ [] hy]
  simp only [splitColonAux, if_pos rfl]
  have h := splitColonAux_token z [] [] hz
  rw [List.append_nil] at h
  rw [h]
  simp [splitColonAux]

theorem pyInt_digits (l : List Char) (hne : l ≠ []) (hd : ∀ c ∈ l, isDigitC c = true) :
    pyInt l = some (Int.ofNat (digitsToNat l)) := by
  unfold pyInt
  rw [if_neg hne, if_pos (List.all_eq_true.mpr hd)]

theorem digit_ne_colon {c : Char} (h : isDigitC c = true) : c ≠ ':' := by
  intro hc
  subst hc
  exact absurd h (by decide)

theorem parse_timestamp_ok (year : Int) (mon sp1 d sp2 hh mm ss : List Char) (m : Int)
    (hp : tsPieces year mon sp1 d sp2 hh mm ss m = true) :
    RFC3164Parser.parse_timestamp year
      (String.mk (mon ++ (sp1 ++ (d ++ (sp2 ++ (hh ++ (':' :: (mm ++ (':' :: ss))))))))) =
      Except.ok (isoCore year m (Int.ofNat (digitsToNat d)) (Int.ofNat (digitsToNat hh))
        (Int.ofNat (digitsToNat mm)) (Int.ofNat (digitsToNat ss))) := by
  simp only [tsPieces, Bool.and_eq_true, and_assoc] at hp
  obtain ⟨hm3, hmw, hsp1, hsp1w, hd, hd2, hdd, hsp2, hsp2w, hhh, hhd, hmml, hmd, hssl,
    hsd, hmon, hvd⟩ := hp
  have hmw' := List.all_eq_true.mp hmw
  have hsp1w' := List.all_eq_true.mp hsp1w
  have hdd' := List.all_eq_true.mp hdd
  have hsp2w' := List.all_eq_true.mp hsp2w
  have hhd' := List.all_eq_true.mp hhd
  have hmd' := List.all_eq_true.mp hmd
  have hsd' := List.all_eq_true.mp hsd
  have hm3' : mon.length = 3 := of_decide_eq_true hm3
  have hmonne : mon ≠ [] := by
    intro h
    rw [h] at hm3'
    simp at hm3'
  have hsp1ne : sp1 ≠ [] := by simpa using hsp1
  have hdne : d ≠ [] := by simpa using hd
  have hsp2ne : sp2 ≠ [] := by simpa using hsp2
  have hhh' : hh.length = 2 := of_decide_eq_true hhh
  have hmml' : mm.length = 2 := of_decide_eq_true hmml
  have hssl' : ss.length = 2 := of_decide_eq_true hssl
  have hhne : hh ≠ [] := by
    intro h
    rw [h] at hhh'
    simp at hhh'
  have hmonw : ∀ x ∈ mon, isWs x = false := fun x hx => not_ws_of_word (hmw' x hx)
  have htime : ∀ x ∈ hh ++ (':' :: (mm ++ (':' :: ss))), isWs x = false := by
    intro x hx
    rcases List.mem_append.mp hx with hx | hx
    · exact not_ws_of_digit (hhd' x hx)
    · rcases List.mem_cons.mp hx with rfl | hx
      · decide
      · rcases List.mem_append.mp hx with hx | hx
        · exact not_ws_of_digit (hmd' x hx)
        · rcases List.mem_cons.mp hx with rfl | hx
          · decide
          · exact not_ws_of_digit (hsd' x hx)
  have hsplit := pySplit_three mon sp1 d sp2 (hh ++ (':' :: (mm ++ (':' :: ss))))
    hmonne hmonw hsp1ne hsp1w' hdne (fun x hx => not_ws_of_digit (hdd' x hx))
    hsp2ne hsp2w' (by simp [hhne]) htime
  have hmon' : RFC3164Parser.MONTHS (String.mk mon) = some m := by
    exact beq_iff_eq.mp hmon
  have hsc := splitColon_three hh mm ss
    (fun x hx => digit_ne_colon (hhd' x hx))
    (fun x hx => digit_ne_colon (hmd' x hx))
    (fun x hx => digit_ne_colon (hsd' x hx))
  unfold RFC3164Parser.parse_timestamp
  rw [show (String.mk (mon ++ (sp1 ++ (d ++ (sp2 ++ (hh ++ (':' :: (mm ++ (':' :: ss))))))))).data
    = mon ++ (sp1 ++ (d ++ (sp2 ++ (hh ++ (':' :: (mm ++ (':' :: ss))))))) from rfl]
  simp only [hsplit]
  simp only [pyInt_digits d hdne hdd']
  simp only [hmon']
  simp only [hsc]
  simp only [pyInt_digits hh hhne hhd',
    pyInt_digits mm (by intro h; rw [h] at hmml'; simp at hmml') hmd',
    pyInt_digits ss (by intro h; rw [h] at hssl'; simp at hssl') hsd']
  rw [if_pos hvd]

theorem dropWhile_eq_self_of_head (l : List Char)
    (h : ∀ c, l.head? = some c → isWs c = false) : l.dropWhile isWs = l := by
  cases l with
  | nil => rfl
  | cons c r => simp [List.dropWhile_cons, h c rfl]

theorem pyStrip_eq_self (l : List Char) (hh : ∀ c, l.head? = some c → isWs c = false)
    (hl : ∀ c, l.getLast? = some c → isWs c = false) : pyStrip l = l := by
  unfold pyStrip
  rw [dropWhile_eq_self_of_head l hh]
  rw [dropWhile_eq_self_of_head l.reverse ?hr]
  · exact List.reverse_reverse l
  · intro c hc
    rw [List.head?_reverse] at hc
    exact hl c hc

theorem pyStrip_trailing_space (l : List Char)
    (hh : ∀ c, l.head? = some c → isWs c = false)
    (hl : ∀ c, l.getLast? = some c → isWs c = false) :
    pyStrip (l ++ [' ']) = l := by
  cases l with
  | nil => decide
  | cons a l' =>
    unfold pyStrip
    rw [dropWhile_eq_self_of_head ((a :: l') ++ [' ']) ?hfront]
    case hfront =>
      intro c hc
      simp only [List.cons_append, List.head?_cons, Option.some.injEq] at hc
      subst hc
      exact hh a rfl
    rw [List.reverse_append]
    rw [show ([' '] : List Char).reverse ++ (a :: l').reverse = ' ' :: (a :: l').reverse from by simp]
    rw [show List.dropWhile isWs (' ' :: (a :: l').reverse) = List.dropWhile isWs ((a :: l').reverse) from by
      rw [List.dropWhile_cons, if_pos (by decide)]]
    rw [dropWhile_eq_self_of_head (a :: l').reverse ?hrev]
    · exact List.reverse_reverse _
    · intro c hc
      rw [List.head?_reverse] at hc
      exact hl c hc

theorem matchTs_of_Ts3164Shape {year : Int} {ts : List Char} (h : Ts3164Shape year ts) :
    ∀ r, matchTs (ts ++ r) = some (ts, r) := by
  obtain ⟨mon, sp1, d, sp2, hh, mm, ss, m, rfl, hp⟩ := h
  intro r
  simp only [tsPieces, Bool.and_eq_true, and_assoc] at hp
  obtain ⟨hm3, hmw, hsp1, hsp1w, hd, hd2, hdd, hsp2, hsp2w, hhh, hhd, hmml, hmd, hssl,
    hsd, hmon, hvd⟩ := hp
  have H := matchTs_of_shape mon sp1 d sp2 hh mm ss r
    (of_decide_eq_true hm3) (List.all_eq_true.mp hmw)
    (by simpa using hsp1) (List.all_eq_true.mp hsp1w)
    (by simpa using hd) (of_decide_eq_true hd2) (List.all_eq_true.mp hdd)
    (by simpa using hsp2) (List.all_eq_true.mp hsp2w)
    (of_decide_eq_true hhh) (List.all_eq_true.mp hhd)
    (of_decide_eq_true hmml) (List.all_eq_true.mp hmd)
    (of_decide_eq_true hssl) (List.all_eq_true.mp hsd)
  simp only [List.append_assoc, List.cons_append] at H ⊢
  exact H

theorem pyStrip_gen (core M : List Char)
    (hc : core.head? = some '<') (hlast : core.getLast? = some ':')
    (hMh : ∀ ch, M.head? = some ch → isWs ch = false)
    (hMl : ∀ ch, M.getLast? = some ch → isWs ch = false) :
    pyStrip (core ++ (' ' :: M)) = if M = [] then core else core ++ (' ' :: M) := by
  obtain ⟨c0, core', rfl⟩ : ∃ c0 core', core = c0 :: core' := by
    cases core with
    | nil => simp at hc
    | cons a b => exact ⟨a, b, rfl⟩
  have hc0 : c0 = '<' := by simpa using hc
  subst hc0
  by_cases hMe : M = []
  · subst hMe
    rw [if_pos rfl]
    exact pyStrip_trailing_space _ (by intro ch hch; simp at hch; subst hch; decide)
      (by intro ch hch; rw [hlast] at hch; injection hch with h2; subst h2; decide)
  · rw [if_neg hMe]
    apply pyStrip_eq_self
    · intro ch hch
      simp only [List.cons_append, List.head?_cons, Option.some.injEq] at hch
      subst hch
      decide
    · intro ch hch
      obtain ⟨mlast, hml⟩ : ∃ x, M.getLast? = some x := by
        cases h : M.getLast? with
        | none => exact absurd (List.getLast?_eq_none_iff.mp h) hMe
        | some x => exact ⟨x, rfl⟩
      rw [List.getLast?_append, show (' ' :: M) = [' '] ++ M from rfl,
        List.getLast?_append, hml] at hch
      have hch' : ch = mlast := by
        simp only [Option.or_some] at hch
        exact (Option.some.injEq _ _ ▸ hch.symm :)
      subst hch'
      exact hMl _ hml

theorem parse3164_generated (year : Int) (P : Int) (T H TAG M pidStr : String)
    (pidO : Option (List Char))
    (hP : 0 ≤ P)
    (hTs : Ts3164Shape year T.data)
    (hpidseg : pidStr.data = pidChunk pidO)
    (hpidO : ∀ p, pidO = some p → p ≠ [] ∧ ∀ x ∈ p, isDigitC x = true)
    (hHne : H.data ≠ []) (hHw : ∀ x ∈ H.data, isWs x = false)
    (hTAGne : TAG.data ≠ []) (hTAGw : ∀ x ∈ TAG.data, isTagC x = true)
    (hMh : ∀ ch, M.data.head? = some ch → isWs ch = false)
    (hMl : ∀ ch, M.data.getLast? = some ch → isWs ch = false)
    (hMn : M.data.contains '\n' = false) :
    ∃ ts, RFC3164Parser.parse year
        ("<" ++ intToString P ++ ">" ++ T ++ " " ++ H ++ " " ++ TAG ++ pidStr ++ ": " ++ M) =
      Except.ok { priority := P,
                  facility := (RFC3164Parser.parse_priority P).1,
                  severity := (RFC3164Parser.parse_priority P).2,
                  timestamp := ts, hostname := H, tag := TAG,
                  pid := match pidO with
                         | some p => if p = [] then none else some (String.mk p)
                         | none => none,
                  message := M } := by
  have hpri_ne : (intToString P).data ≠ [] := by
    rw [intToString_nonneg_data hP]
    exact (natToDigits_spec _).2.1
  have hpri_d : ∀ x ∈ (intToString P).data, isDigitC x = true := by
    rw [intToString_nonneg_data hP]
    exact (natToDigits_spec _).2.2
  have hts' := matchTs_of_Ts3164Shape hTs
  have hG : ("<" ++ intToString P ++ ">" ++ T ++ " " ++ H ++ " " ++ TAG ++ pidStr ++ ": " ++ M).data =
      ('<' :: ((intToString P).data ++ ('>' :: (T.data ++ (' ' :: (H.data ++ (' ' :: (TAG.data ++ (pidChunk pidO ++ (':' :: ([] : List Char))))))))))) ++ (' ' :: M.data) := by
    simp only [String.data_append, hpidseg, List.append_assoc, List.cons_append,
      List.nil_append]
  have hcore_last : (('<' :: ((intToString P).data ++ ('>' :: (T.data ++ (' ' :: (H.data ++ (' ' :: (TAG.data ++ (pidChunk pidO ++ (':' :: ([] : List Char))))))))))) : List Char).getLast? = some ':' := by
    rw [show ('<' :: ((intToString P).data ++ ('>' :: (T.data ++ (' ' :: (H.data ++ (' ' :: (TAG.data ++ (pidChunk pidO ++ (':' :: ([] : List Char)))))))))) : List Char) =
      ('<' :: ((intToString P).data ++ ('>' :: (T.data ++ (' ' :: (H.data ++ (' ' :: (TAG.data ++ pidChunk pidO)))))))) ++ [':'] from by
        simp [List.append_assoc, List.cons_append]]
    exact List.getLast?_concat _
  have hstrip := pyStrip_gen
    ('<' :: ((intToString P).data ++ ('>' :: (T.data ++ (' ' :: (H.data ++ (' ' :: (TAG.data ++ (pidChunk pidO ++ (':' :: ([] : List Char)))))))))))
    M.data rfl hcore_last hMh hMl
  obtain ⟨mon, sp1, d, sp2, hh2, mm2, ss2, mV, hTeq, hpieces⟩ := hTs
  have hpt := parse_timestamp_ok year mon sp1 d sp2 hh2 mm2 ss2 mV hpieces
  have hPr : Int.ofNat (digitsToNat (intToString P).data) = P := int_digits_roundtrip hP
  refine ⟨isoCore year mV (Int.ofNat (digitsToNat d)) (Int.ofNat (digitsToNat hh2))
    (Int.ofNat (digitsToNat mm2)) (Int.ofNat (digitsToNat ss2)), ?_⟩
  by_cases hMe : M.data = []
  · rw [if_pos hMe] at hstrip
    have hmatch := match3164_of_shape (intToString P).data T.data H.data TAG.data
      ([] : List Char) pidO hpri_ne hpri_d hts' hHne hHw hTAGne hTAGw hpidO
      (by decide)
    rw [show List.dropWhile isWs ([] : List Char) = [] from rfl] at hmatch
    have hM0 : M = String.mk [] := by
      conv_lhs => rw [show M = String.mk M.data from rfl]
      rw [hMe]
    unfold RFC3164Parser.parse
    rw [hG, hstrip]
    simp only [hmatch]
    rw [hTeq]
    simp only [hpt]
    rw [hPr, hM0]
    rcases pidO with _ | p <;> rfl
  · rw [if_neg hMe] at hstrip
    have hdw : (' ' :: M.data).dropWhile isWs = M.data := by
      rw [List.dropWhile_cons, if_pos (by decide)]
      exact dropWhile_eq_self_of_head _ hMh
    have hmatch := match3164_of_shape (intToString P).data T.data H.data TAG.data
      (' ' :: M.data) pidO hpri_ne hpri_d hts' hHne hHw hTAGne hTAGw hpidO
      (by rw [hdw]; exact hMn)
    rw [hdw] at hmatch
    have hbridge : ('<' :: ((intToString P).data ++ ('>' :: (T.data ++ (' ' :: (H.data ++ (' ' :: (TAG.data ++ (pidChunk pidO ++ (':' :: ([] : List Char))))))))))) ++ (' ' :: M.data) =
        '<' :: ((intToString P).data ++ ('>' :: (T.data ++ (' ' :: (H.data ++ (' ' :: (TAG.data ++ (pidChunk pidO ++ (':' :: (' ' :: M.data)))))))))) := by
      simp [List.append_assoc, List.cons_append]
    unfold RFC3164Parser.parse
    rw [hG, hstrip, hbridge]
    simp only [hmatch]
    rw [hTeq]
    simp only [hpt]
    rw [hPr]
    rcases pidO with _ | p <;> rfl

/-- C1: for every facility 0–23 and severity 0–7 the priority codec
round-trips: `parse_priority (generate_priority f s) = (f, s)`, and for
every priority 0–191 re-encoding the decoded pair yields the priority
back. -/
theorem claim1_priority_codec_roundtrip :
    (∀ f s : Int, 0 ≤ f → f ≤ 23 → 0 ≤ s → s ≤ 7 →
      RFC3164Parser.parse_priority (RFC3164MessageGenerator.generate_priority f s) = (f, s)) ∧
    (∀ p : Int, 0 ≤ p → p ≤ 191 →
      RFC3164MessageGenerator.generate_priority
        (RFC3164Parser.parse_priority p).1 (RFC3164Parser.parse_priority p).2 = p) := by
  constructor
  · intro f s hf0 hf hs0 hs
    simp only [RFC3164Parser.parse_priority, RFC3164MessageGenerator.generate_priority,
      Prod.mk.injEq]
    omega
  · intro p hp0 hp
    simp only [RFC3164Parser.parse_priority, RFC3164MessageGenerator.generate_priority]
    omega

/-- Witness for C1 at facility 4, severity 2, priority 34. -/
theorem claim1_priority_codec_roundtrip_witness :
    RFC3164Parser.parse_priority (RFC3164MessageGenerator.generate_priority 4 2) = (4, 2) ∧
    RFC3164MessageGenerator.generate_priority
      (RFC3164Parser.parse_priority 34).1 (RFC3164Parser.parse_priority 34).2 = 34 :=
  ⟨claim1_priority_codec_roundtrip.1 4 2 (by norm_num) (by norm_num) (by norm_num) (by norm_num),
   claim1_priority_codec_roundtrip.2 34 (by norm_num) (by norm_num)⟩

/-- C4: parsing the RFC 5424 example line yields priority 165, facility 20,
severity 5, `app_name = some "su"`, `msg_id = some "ID47"`, and `none` for
PROC-ID and STRUCTURED-DATA because their tokens are exactly `-`; the
parser's nil mapping sends `-` to `none` and every other token to itself
unchanged. -/
theorem claim4_rfc5424_parse_example :
    RFC5424Parser.parse "<165>1 2003-10-11T22:14:15.003Z mymachine su - ID47 - 'su root' failed for lonvick on /dev/pts/8" =
      Except.ok { priority := 165, facility := 20, severity := 5,
                  version := 1, timestamp := "2003-10-11T22:14:15.003Z",
                  hostname := "mymachine", app_name := some "su", pid := none,
                  msg_id := some "ID47", structured_data := none,
                  message := "'su root' failed for lonvick on /dev/pts/8" } ∧
    (∀ t : String, t ≠ "-" → RFC5424Parser.nilMap t = some t) ∧
    RFC5424Parser.nilMap "-" = none := by
  refine ⟨by decide, ?_, rfl⟩
  intro t ht
  simp [RFC5424Parser.nilMap, ht]

/-- Witness for C4's hypothesis-bearing conjunct at the token "x". -/
theorem claim4_rfc5424_parse_example_witness :
    RFC5424Parser.nilMap "x" = some "x" :=
  claim4_rfc5424_parse_example.2.1 "x" (by decide)

/-- C6 counterexample: a `MessageComponents` with `pid = some 0` — the pid
is present, yet the generated message contains no bracket segment at all,
refuting "whenever pid is present the literal [pid] segment appears". -/
theorem claim6_counterexample_pid_zero :
    RFC3164MessageGenerator.generate ⟨2026, 1, 1, 0, 0, 0, 0⟩
      { rfc_version := "3164", priority := some 34, timestamp := some "Oct 11 22:14:15",
        hostname := some "h", tag := some "t", pid := some 0, message := some "m" } =
      "<34>Oct 11 22:14:15 h t: m" ∧
    '[' ∉ "<34>Oct 11 22:14:15 h t: m".data := by
  exact ⟨by decide, by decide⟩

/-- C6 (amended): the RFC 3164 generator output has the exact shape
`<priority>TIMESTAMP HOSTNAME TAG[PID]: MESSAGE`, where the `[pid]`
segment appears exactly when the pid is present AND non-zero (a pid of 0
is falsy in Python and renders nothing); single spaces separate the
resolved fields and the literal `: ` precedes the message even when it is
empty. -/
theorem claim6_rfc3164_generate_shape (now : PyDateTime) (c : MessageComponents) :
    (∀ p : Int, c.pid = some p → p ≠ 0 →
      RFC3164MessageGenerator.generate now c =
        "<" ++ intToString (RFC3164MessageGenerator.resolvedPriority c) ++ ">" ++
        RFC3164MessageGenerator.resolvedTimestamp now c ++ " " ++
        truthyStr c.hostname "localhost" ++ " " ++ truthyStr c.tag "app" ++
        "[" ++ intToString p ++ "]" ++ ": " ++ truthyStr c.message "") ∧
    (c.pid = none ∨ c.pid = some 0 →
      RFC3164MessageGenerator.generate now c =
        "<" ++ intToString (RFC3164MessageGenerator.resolvedPriority c) ++ ">" ++
        RFC3164MessageGenerator.resolvedTimestamp now c ++ " " ++
        truthyStr c.hostname "localhost" ++ " " ++ truthyStr c.tag "app" ++
        ": " ++ truthyStr c.message "") := by
  constructor
  · intro p hp hp0
    apply String.ext
    simp [RFC3164MessageGenerator.generate, RFC3164MessageGenerator.pidSegment, hp, hp0,
      String.data_append, List.append_assoc]
  · intro hp
    apply String.ext
    rcases hp with hp | hp <;>
      simp [RFC3164MessageGenerator.generate, RFC3164MessageGenerator.pidSegment, hp,
        String.data_append, List.append_assoc]

/-- Witness for C6 (amended) at a concrete component set with pid 5 and
with pid absent. -/
theorem claim6_rfc3164_generate_shape_witness :
    RFC3164MessageGenerator.generate ⟨2026, 1, 1, 0, 0, 0, 0⟩
      { rfc_version := "3164", priority := some 34, timestamp := some "Oct 11 22:14:15",
        hostname := some "h", tag := some "t", pid := some 5, message := some "m" } =
      "<34>Oct 11 22:14:15 h t[5]: m" ∧
    RFC3164MessageGenerator.generate ⟨2026, 1, 1, 0, 0, 0, 0⟩
      { rfc_version := "3164", priority := some 34, timestamp := some "Oct 11 22:14:15",
        hostname := some "h", tag := some "t", pid := none, message := some "m" } =
      "<34>Oct 11 22:14:15 h t: m" := by
  constructor
  · exact ((claim6_rfc3164_generate_shape ⟨2026, 1, 1, 0, 0, 0, 0⟩
      { rfc_version := "3164", priority := some 34, timestamp := some "Oct 11 22:14:15",
        hostname := some "h", tag := some "t", pid := some 5, message := some "m" }).1
      5 rfl (by decide)).trans (by decide)
  · exact ((claim6_rfc3164_generate_shape ⟨2026, 1, 1, 0, 0, 0, 0⟩
      { rfc_version := "3164", priority := some 34, timestamp := some "Oct 11 22:14:15",
        hostname := some "h", tag := some "t", pid := none, message := some "m" }).2
      (Or.inl rfl)).trans (by decide)

/-- C7 counterexample: an RFC 3164 input whose bracket group holds
non-digit characters does NOT parse — the pattern's `\[(\d+)\]` requires
digits, and skipping the optional group leaves `:` facing `[`, so the whole
match fails and the parser raises the format error instead of carrying
"abc" through as pid. -/
theorem claim7_counterexample_nonnumeric_pid :
    RFC3164Parser.parse 2026 "<34>Oct 11 22:14:15 host tag[abc]: hi" =
      Except.error "Invalid RFC 3164 syslog format" := by
  decide

/-- C7 (amended): the bracket group after the tag is accepted only when its
content is one or more digits; non-digit content makes the overall shape
match fail with the format error, while an all-digit group is carried
through as a text pid field (leading zeros preserved, no numeric
conversion). -/
theorem claim7_pid_digits_only :
    RFC3164Parser.parse 2026 "<34>Oct 11 22:14:15 host tag[0x7]: hi" =
      Except.error "Invalid RFC 3164 syslog format" ∧
    RFC3164Parser.parse 2026 "<34>Oct 11 22:14:15 host tag[007]: hi" =
      Except.ok { priority := 34, facility := 4, severity := 2,
                  timestamp := "2026-10-11T22:14:15", hostname := "host", tag := "tag",
                  pid := some "007", message := "hi" } := by
  exact ⟨by decide, by decide⟩

/-- C8: generation is a total `String`-valued function for every RFC
version and every `MessageComponents` — on all-absent components each
field falls back to its default (priority 34, generated current-time
timestamp, hostname localhost, tag app resp. the `-` nil values, empty
message), and out-of-range numeric fields are rendered into the text
unvalidated (facility/severity 999 give priority 8991; an explicit
negative priority is printed as-is). -/
theorem claim8_generate_total_defaults (now : PyDateTime) (v : String) :
    generator_service.generate v now { rfc_version := v } =
      (if v = "5424"
       then "<34>1 " ++ RFC5424MessageGenerator.generate_timestamp now ++ " localhost - - - - "
       else "<34>" ++ RFC3164MessageGenerator.generate_timestamp now ++ " localhost app: ") ∧
    RFC3164MessageGenerator.generate now
      { rfc_version := "3164", facility := some 999, severity := some 999,
        timestamp := some "T", hostname := some "h", tag := some "t",
        message := some "m" } = "<8991>T h t: m" ∧
    RFC5424MessageGenerator.generate now
      { rfc_version := "5424", priority := some (-7), timestamp := some "T",
        hostname := some "h", message := some "m" } = "<-7>1 T h - - - - m" := by
  refine ⟨?_, ?_, ?_⟩
  · by_cases hv : v = "5424"
    · subst hv
      simp only [generator_service.generate, if_pos rfl, if_pos rfl]
      apply String.ext
      simp [RFC5424MessageGenerator.generate, RFC3164MessageGenerator.resolvedPriority,
        RFC5424MessageGenerator.resolvedTimestamp, truthyStr, String.data_append,
        List.append_assoc, show (intToString 34).data = ['3', '4'] from rfl,
        show (intToString 1).data = ['1'] from rfl]
    · simp only [generator_service.generate, if_neg hv]
      apply String.ext
      simp [RFC3164MessageGenerator.generate, RFC3164MessageGenerator.resolvedPriority,
        RFC3164MessageGenerator.resolvedTimestamp, RFC3164MessageGenerator.pidSegment,
        truthyStr, String.data_append, List.append_assoc,
        show (intToString 34).data = ['3', '4'] from rfl]
  · apply String.ext
    simp [RFC3164MessageGenerator.generate, RFC3164MessageGenerator.resolvedPriority,
      RFC3164MessageGenerator.resolvedTimestamp, RFC3164MessageGenerator.pidSegment,
      RFC3164MessageGenerator.generate_priority, truthyStr, String.data_append,
      List.append_assoc, show (intToString 8991).data = ['8', '9', '9', '1'] from rfl]
  · apply String.ext
    simp [RFC5424MessageGenerator.generate, RFC3164MessageGenerator.resolvedPriority,
      RFC5424MessageGenerator.resolvedTimestamp, truthyStr, String.data_append,
      List.append_assoc, show (intToString (-7)).data = ['-', '7'] from rfl,
      show (intToString 1).data = ['1'] from rfl]

/-- C9: the dispatch layer routes every version string other than "5424"
(including "3164" and arbitrary values) to the RFC 3164 generator and
parser, and routes exactly "5424" to the RFC 5424 implementations. -/
theorem claim9_dispatch_routing (v : String) (now : PyDateTime) (c : MessageComponents)
    (year : Int) (s : String) (hv : v ≠ "5424") :
    generator_service.generate v now c = RFC3164MessageGenerator.generate now c ∧
    parse_service.parse v year s = (RFC3164Parser.parse year s).map ParsedSyslog.v3164 ∧
    generator_service.generate "5424" now c = RFC5424MessageGenerator.generate now c ∧
    parse_service.parse "5424" year s = (RFC5424Parser.parse s).map ParsedSyslog.v5424 := by
  refine ⟨?_, ?_, ?_, ?_⟩ <;>
    simp [generator_service.generate, parse_service.parse, hv]

/-- Witness for C9 at version "3164". -/
theorem claim9_dispatch_routing_witness :
    generator_service.generate "3164" ⟨2026, 1, 1, 0, 0, 0, 0⟩ { rfc_version := "3164" } =
      RFC3164MessageGenerator.generate ⟨2026, 1, 1, 0, 0, 0, 0⟩ { rfc_version := "3164" } ∧
    parse_service.parse "3164" 2026 "x" =
      (RFC3164Parser.parse 2026 "x").map ParsedSyslog.v3164 :=
  ⟨(claim9_dispatch_routing "3164" ⟨2026, 1, 1, 0, 0, 0, 0⟩ { rfc_version := "3164" }
      2026 "x" (by decide)).1,
   (claim9_dispatch_routing "3164" ⟨2026, 1, 1, 0, 0, 0, 0⟩ { rfc_version := "3164" }
      2026 "x" (by decide)).2.1⟩

/-- C10: both generators default by Python truthiness, so an empty-string
field behaves exactly like an absent field (hostname, tag, timestamp for
RFC 3164; hostname, timestamp, app_name, proc_id, msg_id, structured_data
for RFC 5424), and a pid of 0 behaves like an absent pid. -/
theorem claim10_truthiness_defaulting (now : PyDateTime) (c : MessageComponents) :
    RFC3164MessageGenerator.generate now { c with hostname := some "" } =
      RFC3164MessageGenerator.generate now { c with hostname := none } ∧
    RFC3164MessageGenerator.generate now { c with tag := some "" } =
      RFC3164MessageGenerator.generate now { c with tag := none } ∧
    RFC3164MessageGenerator.generate now { c with timestamp := some "" } =
      RFC3164MessageGenerator.generate now { c with timestamp := none } ∧
    RFC3164MessageGenerator.generate now { c with pid := some 0 } =
      RFC3164MessageGenerator.generate now { c with pid := none } ∧
    RFC5424MessageGenerator.generate now { c with hostname := some "" } =
      RFC5424MessageGenerator.generate now { c with hostname := none } ∧
    RFC5424MessageGenerator.generate now { c with timestamp := some "" } =
      RFC5424MessageGenerator.generate now { c with timestamp := none } ∧
    RFC5424MessageGenerator.generate now { c with app_name := some "" } =
      RFC5424MessageGenerator.generate now { c with app_name := none } ∧
    RFC5424MessageGenerator.generate now { c with proc_id := some "" } =
      RFC5424MessageGenerator.generate now { c with proc_id := none } ∧
    RFC5424MessageGenerator.generate now { c with msg_id := some "" } =
      RFC5424MessageGenerator.generate now { c with msg_id := none } ∧
    RFC5424MessageGenerator.generate now { c with structured_data := some "" } =
      RFC5424MessageGenerator.generate now { c with structured_data := none } ∧
    truthyStr (some "") "localhost" = "localhost" ∧
    truthyStr (some "") "app" = "app" ∧
    truthyStr (some "") "-" = "-" := by
  refine ⟨?_, ?_, ?_, ?_, ?_, ?_, ?_, ?_, ?_, ?_, rfl, rfl, rfl⟩ <;>
    simp [RFC3164MessageGenerator.generate, RFC5424MessageGenerator.generate,
      RFC3164MessageGenerator.resolvedPriority, RFC3164MessageGenerator.resolvedTimestamp,
      RFC5424MessageGenerator.resolvedTimestamp, RFC3164MessageGenerator.pidSegment,
      truthyStr]

/-- C2: for every valid `MessageComponents` with rfc_version "3164"
(fields respecting the wire grammar: renderable priority, well-formed or
defaulted timestamp, whitespace-free hostname, delimiter-free tag,
non-negative pid, newline-free unpadded message), parsing the generated
message at the same moment succeeds, and the parsed facility and severity
equal those implied by the components' priority: the explicit priority if
given, else facility*8+severity if both are given, else the default 34. -/
theorem claim2_rfc3164_generate_parse (now : PyDateTime) (c : MessageComponents)
    (h : Valid3164 now c) :
    ∃ m, RFC3164Parser.parse now.year (RFC3164MessageGenerator.generate now c) = Except.ok m ∧
      m.facility = (RFC3164Parser.parse_priority (RFC3164MessageGenerator.resolvedPriority c)).1 ∧
      m.severity = (RFC3164Parser.parse_priority (RFC3164MessageGenerator.resolvedPriority c)).2 := by
  obtain ⟨hcomp, hts⟩ := h
  simp only [componentsOk, Bool.and_eq_true, and_assoc] at hcomp
  obtain ⟨hP, hHne, hHw, hTne, hTw, hPid, hMh, hMl, hMn⟩ := hcomp
  obtain ⟨pidO, hpidseg, hpidO⟩ : ∃ pidO,
      (RFC3164MessageGenerator.pidSegment c).data = pidChunk pidO ∧
      (∀ p, pidO = some p → p ≠ [] ∧ ∀ x ∈ p, isDigitC x = true) := by
    rcases hcp : c.pid with _ | p
    · exact ⟨none, by simp [RFC3164MessageGenerator.pidSegment, hcp, pidChunk], by simp⟩
    · rw [hcp] at hPid
      by_cases hz : p = 0
      · exact ⟨none, by simp [RFC3164MessageGenerator.pidSegment, hcp, hz, pidChunk], by simp⟩
      · have hp0 : 0 ≤ p := by simpa using hPid
        refine ⟨some (natToDigits p.toNat), ?_, ?_⟩
        · simp only [RFC3164MessageGenerator.pidSegment, hcp]
          rw [if_neg hz]
          simp [String.data_append, intToString_nonneg_data hp0, pidChunk, List.cons_append]
        · intro q hq
          cases hq
          exact ⟨(natToDigits_spec _).2.1, (natToDigits_spec _).2.2⟩
  have hgen : RFC3164MessageGenerator.generate now c =
      "<" ++ intToString (RFC3164MessageGenerator.resolvedPriority c) ++ ">" ++
      RFC3164MessageGenerator.resolvedTimestamp now c ++ " " ++
      truthyStr c.hostname "localhost" ++ " " ++ truthyStr c.tag "app" ++
      RFC3164MessageGenerator.pidSegment c ++ ": " ++ truthyStr c.message "" := rfl
  rw [hgen]
  have hmain := parse3164_generated now.year (RFC3164MessageGenerator.resolvedPriority c)
    (RFC3164MessageGenerator.resolvedTimestamp now c)
    (truthyStr c.hostname "localhost") (truthyStr c.tag "app") (truthyStr c.message "")
    (RFC3164MessageGenerator.pidSegment c) pidO
    (of_decide_eq_true hP) hts hpidseg hpidO
    (by simpa using hHne)
    (fun x hx => by simpa using List.all_eq_true.mp hHw x hx)
    (by simpa using hTne)
    (List.all_eq_true.mp hTw)
    (by intro ch hch; rw [hch] at hMh; simpa using hMh)
    (by intro ch hch; rw [hch] at hMl; simpa using hMl)
    (by simpa using hMn)
  obtain ⟨ts, hparse⟩ := hmain
  exact ⟨_, hparse, rfl, rfl⟩

/-- Witness for C2 at a concrete valid component set (priority 34 implies
facility 4 and severity 2). -/
theorem claim2_rfc3164_generate_parse_witness :
    Valid3164 ⟨2026, 10, 11, 22, 14, 15, 0⟩
      { rfc_version := "3164", priority := some 34, timestamp := some "Oct 11 22:14:15",
        hostname := some "mymachine", tag := some "su", pid := some 7,
        message := some "hello" } ∧
    ∃ m, RFC3164Parser.parse (2026 : Int)
        (RFC3164MessageGenerator.generate ⟨2026, 10, 11, 22, 14, 15, 0⟩
          { rfc_version := "3164", priority := some 34, timestamp := some "Oct 11 22:14:15",
            hostname := some "mymachine", tag := some "su", pid := some 7,
            message := some "hello" }) = Except.ok m ∧
      m.facility = 4 ∧ m.severity = 2 := by
  have hv : Valid3164 ⟨2026, 10, 11, 22, 14, 15, 0⟩
      { rfc_version := "3164", priority := some 34, timestamp := some "Oct 11 22:14:15",
        hostname := some "mymachine", tag := some "su", pid := some 7,
        message := some "hello" } := by
    constructor
    · decide
    · exact ⟨['O', 'c', 't'], [' '], ['1', '1'], [' '], ['2', '2'], ['1', '4'], ['1', '5'], 10,
        by decide, by decide⟩
  have hm := claim2_rfc3164_generate_parse ⟨2026, 10, 11, 22, 14, 15, 0⟩
    { rfc_version := "3164", priority := some 34, timestamp := some "Oct 11 22:14:15",
      hostname := some "mymachine", tag := some "su", pid := some 7,
      message := some "hello" } hv
  obtain ⟨m, hp, hf, hs⟩ := hm
  exact ⟨hv, m, hp, by rw [hf]; decide, by rw [hs]; decide⟩

/-- C3: parsing the RFC 3164 example line (for any ambient current year in
`datetime`'s representable range) succeeds with priority 34, facility 4,
severity 2, hostname "mymachine", tag "su", no pid, and the message
"'su root' failed for lonvick on /dev/pts/8"; the timestamp is normalised
to ISO 8601 with the ambient year substituted. -/
theorem claim3_rfc3164_parse_example (year : Int) (h1 : 1 ≤ year) (h2 : year ≤ 9999) :
    RFC3164Parser.parse year "<34>Oct 11 22:14:15 mymachine su: 'su root' failed for lonvick on /dev/pts/8" =
      Except.ok { priority := 34, facility := 4, severity := 2,
                  timestamp := isoCore year 10 11 22 14 15,
                  hostname := "mymachine", tag := "su", pid := none,
                  message := "'su root' failed for lonvick on /dev/pts/8" } := by
  have hdm : daysInMonth year 10 = 31 := by norm_num [daysInMonth]
  have hv : validDateTime year 10 11 22 14 15 = true := by
    simp [validDateTime, hdm]
    omega
  have hts : RFC3164Parser.parse_timestamp year (String.mk ("Oct 11 22:14:15").data) =
      Except.ok (isoCore year 10 11 22 14 15) := by
    unfold RFC3164Parser.parse_timestamp
    simp only [show pySplit (String.mk ("Oct 11 22:14:15").data).data =
        [['O', 'c', 't'], ['1', '1'], ['2', '2', ':', '1', '4', ':', '1', '5']] from rfl]
    simp only [show pyInt ['1', '1'] = some 11 from rfl,
      show RFC3164Parser.MONTHS (String.mk ['O', 'c', 't']) = some 10 from rfl,
      show splitColon ['2', '2', ':', '1', '4', ':', '1', '5'] =
        [['2', '2'], ['1', '4'], ['1', '5']] from rfl,
      show pyInt ['2', '2'] = some 22 from rfl,
      show pyInt ['1', '4'] = some 14 from rfl,
      show pyInt ['1', '5'] = some 15 from rfl]
    rw [if_pos hv]
  unfold RFC3164Parser.parse
  rw [show match3164 (pyStrip ("<34>Oct 11 22:14:15 mymachine su: 'su root' failed for lonvick on /dev/pts/8").data) =
    some ⟨"34".data, "Oct 11 22:14:15".data, "mymachine".data, "su".data, none,
      "'su root' failed for lonvick on /dev/pts/8".data⟩ from by decide]
  simp only []
  rw [hts]
  rfl

/-- Witness for C3 at the year 2026. -/
theorem claim3_rfc3164_parse_example_witness :
    (1 ≤ (2026 : Int)) ∧ ((2026 : Int) ≤ 9999) ∧
    RFC3164Parser.parse 2026 "<34>Oct 11 22:14:15 mymachine su: 'su root' failed for lonvick on /dev/pts/8" =
      Except.ok { priority := 34, facility := 4, severity := 2,
                  timestamp := isoCore 2026 10 11 22 14 15,
                  hostname := "mymachine", tag := "su", pid := none,
                  message := "'su root' failed for lonvick on /dev/pts/8" } :=
  ⟨by norm_num, by norm_num,
   claim3_rfc3164_parse_example 2026 (by norm_num) (by norm_num)⟩

/-- C5: parsing is all-or-nothing — for every input either a fully built
message is returned or an error is raised; an RFC 3164 parse succeeds
exactly when the shape pattern matches the stripped input AND the captured
timestamp passes the month-table and calendar validation, an RFC 5424
parse succeeds exactly when its shape pattern matches; shape mismatches,
unknown month abbreviations and impossible calendar dates each produce the
format error. -/
theorem claim5_parse_contract :
    (∀ (v : String) (year : Int) (s : String),
      (∃ m, parse_service.parse v year s = Except.ok m) ∨
      (∃ e, parse_service.parse v year s = Except.error e)) ∧
    (∀ (year : Int) (s : String),
      (∃ m, RFC3164Parser.parse year s = Except.ok m) ↔
      (∃ g, match3164 (pyStrip s.data) = some g ∧
        ∃ t, RFC3164Parser.parse_timestamp year (String.mk g.ts) = Except.ok t)) ∧
    (∀ s : String,
      (∃ m, RFC5424Parser.parse s = Except.ok m) ↔
      (∃ g, match5424 (pyStrip s.data) = some g)) ∧
    RFC3164Parser.parse 2026 "not a syslog message" =
      Except.error "Invalid RFC 3164 syslog format" ∧
    RFC5424Parser.parse "not a syslog message" =
      Except.error "Invalid RFC 5424 syslog format" ∧
    RFC3164Parser.parse 2026 "<34>Xyz 11 22:14:15 h t: m" =
      Except.error "Parsing error: Invalid timestamp format: Invalid month: Xyz" ∧
    RFC3164Parser.parse 2026 "<34>Feb 30 22:14:15 h t: m" =
      Except.error "Parsing error: Invalid timestamp format" := by
  refine ⟨?_, ?_, ?_, by decide, by decide, by decide, by decide⟩
  · intro v year s
    cases h : parse_service.parse v year s with
    | ok m => exact Or.inl ⟨m, rfl⟩
    | error e => exact Or.inr ⟨e, rfl⟩
  · intro year s
    unfold RFC3164Parser.parse
    cases hg : match3164 (pyStrip s.data) with
    | none => simp
    | some g =>
      simp only [Option.some.injEq]
      cases ht : RFC3164Parser.parse_timestamp year (String.mk g.ts) with
      | ok t =>
        constructor
        · intro _
          exact ⟨g, rfl, t, ht⟩
        · intro _
          exact ⟨_, rfl⟩
      | error e =>
        constructor
        · rintro ⟨m, hm⟩
          exact absurd hm (by simp)
        · rintro ⟨g2, hg2, t, ht2⟩
          have hgg : g2 = g := hg2.symm
          rw [hgg] at ht2
          exact absurd (ht.symm.trans ht2) (by simp)
  · intro s
    unfold RFC5424Parser.parse
    cases hg : match5424 (pyStrip s.data) with
    | none => simp
    | some g =>
      constructor
      · intro _
        exact ⟨g, rfl⟩
      · intro _
        exact ⟨_, rfl⟩

end SyslogTester
